import Mathlib

/-!
Verification of the casbin OpenTelemetry logger.

The repository contains two near-duplicate variants of the logger:
one whose constructor takes a meter plus a context (the context is
stored and passed with every measurement), and one whose constructor
takes a meter provider (measurements are recorded against a fresh
background context).  Both variants are embedded below; the provider
variant's definitions carry a trailing P in their names.

Time is modelled as integer nanoseconds (Go time.Time / time.Duration
are nanosecond-valued); the clock reading taken by a hook is passed in
explicitly as a parameter.  Metric emission is modelled symbolically: a
hook returns the list of measurements it sends to the backend, each
carrying the instrument, the kind of primitive used (histogram record,
counter add, gauge record), the context argument, the numeric value and
the attribute set.  Histogram values are carried in nanoseconds; the
source divides by 1e9 when converting a duration to seconds at the
instrument boundary, a fixed injective rescaling that no property below
depends on.  Go error values are modelled as Option String, with none
standing for a nil error.
-/

set_option autoImplicit false

/-- Event kinds.  The EventType declaration itself is not part of the
files under verification (only its uses are); the source converts an
event type to a string with a direct string conversion, so the type is
string-backed and every string value is a possible event kind. -/
abbrev EventType := String

/-- Modelled from the spec: the EventType constant declarations are not
under src; the spec names the closed set of known kinds
{Evaluate, AddRules, RemoveRules, LoadRuleset, SaveRuleset}, which the
source refers to as EventEnforce, EventAddPolicy, EventRemovePolicy,
EventLoadPolicy, EventSavePolicy.  Only distinctness of the five
constants matters to the properties below, not the exact strings. -/
def EventEnforce : EventType := "Evaluate"

/-- Modelled from the spec: see EventEnforce. -/
def EventAddPolicy : EventType := "AddRules"

/-- Modelled from the spec: see EventEnforce. -/
def EventRemovePolicy : EventType := "RemoveRules"

/-- Modelled from the spec: see EventEnforce. -/
def EventLoadPolicy : EventType := "LoadRuleset"

/-- Modelled from the spec: see EventEnforce. -/
def EventSavePolicy : EventType := "SaveRuleset"

/-- The five known event kinds, used to state the "unknown kind" cases. -/
def knownEventTypes : List EventType :=
  [EventEnforce, EventAddPolicy, EventRemovePolicy, EventLoadPolicy, EventSavePolicy]

/-- The four mutation kinds (the second switch arm of OnAfterEvent). -/
def isMutationKind (k : EventType) : Prop :=
  k = EventAddPolicy ∨ k = EventRemovePolicy ∨ k = EventLoadPolicy ∨ k = EventSavePolicy

instance (k : EventType) : Decidable (isMutationKind k) := by
  unfold isMutationKind
  infer_instance

/-- The per-operation record threaded between the hooks.  The LogEntry
struct declaration is not under src; its fields are those read and
written by the source hooks and described by the spec's data model.
Times are integer nanoseconds; error is Option String (none = nil). -/
structure LogEntry where
  eventType : EventType
  isActive : Bool := false
  startTime : Int := 0
  endTime : Int := 0
  duration : Int := 0
  subject : String := ""
  object : String := ""
  action : String := ""
  domain : String := ""
  allowed : Bool := false
  ruleCount : Int := 0
  error : Option String := none
deriving DecidableEq, Repr

/-- A Go context value, opaque to the core: either the background
context or some other context distinguished by an identifier. -/
inductive Ctx where
  | background : Ctx
  | custom : Nat → Ctx
deriving DecidableEq, Repr

/-- The five metric instruments registered at construction. -/
inductive Instrument where
  | enforceDuration : Instrument
  | enforceTotal : Instrument
  | policyOpsTotal : Instrument
  | policyOpsDuration : Instrument
  | policyRulesCount : Instrument
deriving DecidableEq, Repr

/-- Which recording primitive a measurement uses. -/
inductive MeasureOp where
  | histRecord : MeasureOp
  | counterAdd : MeasureOp
  | gaugeRecord : MeasureOp
deriving DecidableEq, Repr

/-- One measurement sent to the metrics backend: instrument, primitive,
context argument, numeric value (nanoseconds for histogram duration
values, plain integers for counter and gauge values) and the flat
string attribute set. -/
structure Emission where
  inst : Instrument
  op : MeasureOp
  ctx : Ctx
  value : Int
  attrs : List (String × String)
deriving DecidableEq, Repr

/-- The context-based logger variant: the enabled-event set (a
map[EventType]bool in which keys are only ever stored with value true,
hence a finite set of kinds), the optional callback, and the context
stored at construction and passed with every measurement. -/
structure OpenTelemetryLogger where
  enabledEventTypes : Finset EventType
  callback : Option (LogEntry → Option String)
  ctx : Ctx

/-- SetEventTypes replaces the enabled map with a fresh map and inserts
every kind of the supplied slice.  It returns a nil error. -/
def SetEventTypes (l : OpenTelemetryLogger) (eventTypes : List EventType) :
    OpenTelemetryLogger × Option String :=
  ({ l with enabledEventTypes := eventTypes.foldl (fun s k => insert k s) ∅ }, none)

/-- SetLogCallback stores the callback and returns a nil error. -/
def SetLogCallback (l : OpenTelemetryLogger) (cb : LogEntry → Option String) :
    OpenTelemetryLogger × Option String :=
  ({ l with callback := some cb }, none)

/-- OnBeforeEvent: when the enabled map is non-empty and does not hold
the entry's kind, mark the entry inactive; otherwise mark it active and
stamp the start time with the clock reading.  Returns a nil error. -/
def OnBeforeEvent (l : OpenTelemetryLogger) (now : Int) (entry : LogEntry) :
    LogEntry × Option String :=
  if 0 < l.enabledEventTypes.card ∧ entry.eventType ∉ l.enabledEventTypes then
    ({ entry with isActive := false }, none)
  else
    ({ entry with isActive := true, startTime := now }, none)

/-- recordEnforceMetrics: attribute set {allowed, domain (defaulted)};
record the duration to the enforce-duration histogram and add 1 to the
enforce counter, both against the stored context. -/
def recordEnforceMetrics (l : OpenTelemetryLogger) (entry : LogEntry) : List Emission :=
  let domain := if entry.domain = "" then "default" else entry.domain
  let allowed := if entry.allowed then "true" else "false"
  let attrs := [("allowed", allowed), ("domain", domain)]
  [{ inst := .enforceDuration, op := .histRecord, ctx := l.ctx,
     value := entry.duration, attrs := attrs },
   { inst := .enforceTotal, op := .counterAdd, ctx := l.ctx,
     value := 1, attrs := attrs }]

/-- recordPolicyMetrics: add 1 to the policy-operations counter with
{operation, success}, record the duration with {operation} only, and
when the rule count is positive record it to the rules gauge with a
fresh {operation} attribute set, all against the stored context. -/
def recordPolicyMetrics (l : OpenTelemetryLogger) (entry : LogEntry) : List Emission :=
  let operation := entry.eventType
  let success := if entry.error ≠ none then "false" else "true"
  let opsAttrs := [("operation", operation), ("success", success)]
  let durationAttrs := [("operation", operation)]
  [{ inst := .policyOpsTotal, op := .counterAdd, ctx := l.ctx,
     value := 1, attrs := opsAttrs },
   { inst := .policyOpsDuration, op := .histRecord, ctx := l.ctx,
     value := entry.duration, attrs := durationAttrs }] ++
  (if 0 < entry.ruleCount then
     let countAttrs := [("operation", operation)]
     [{ inst := .policyRulesCount, op := .gaugeRecord, ctx := l.ctx,
        value := entry.ruleCount, attrs := countAttrs }]
   else [])

/-- The observable outcome of one OnAfterEvent call: the mutated entry,
the measurements emitted, the list of records the callback was invoked
on, and the returned error. -/
structure AfterResult where
  entry : LogEntry
  emissions : List Emission
  callbackCalls : List LogEntry
  ret : Option String
deriving Repr

/-- OnAfterEvent: an inactive entry returns immediately; otherwise
stamp the end time, compute the duration, dispatch on the event kind
(enforce metrics, policy metrics, or nothing for an unknown kind), then
invoke the callback when one is set and return its error. -/
def OnAfterEvent (l : OpenTelemetryLogger) (now : Int) (entry : LogEntry) : AfterResult :=
  if !entry.isActive then
    { entry := entry, emissions := [], callbackCalls := [], ret := none }
  else
    let entry := { entry with endTime := now }
    let entry := { entry with duration := entry.endTime - entry.startTime }
    let ems :=
      if entry.eventType = EventEnforce then
        recordEnforceMetrics l entry
      else if isMutationKind entry.eventType then
        recordPolicyMetrics l entry
      else []
    match l.callback with
    | some cb => { entry := entry, emissions := ems, callbackCalls := [entry], ret := cb entry }
    | none => { entry := entry, emissions := ems, callbackCalls := [], ret := none }

/-- The kind of instrument a registration request asks the backend for. -/
inductive InstrKind where
  | float64Histogram : InstrKind
  | int64Counter : InstrKind
  | int64Gauge : InstrKind
deriving DecidableEq, Repr

/-- An instrument-registration request sent to the backend meter at
construction time: the primitive kind, the stable name, the
human-readable description and the optional unit. -/
structure InstrumentReq where
  kind : InstrKind
  name : String
  description : String
  unit : Option String := none
deriving DecidableEq, Repr

/-- A backend meter, abstracted to the only thing the core observes of
it: whether a given registration request succeeds (none) or fails with
an error (some err). -/
def Meter := InstrumentReq → Option String

/-- A backend meter provider: yields a meter for a given scope name. -/
def MeterProvider := String → Meter

/-- The instrumentation scope name used by the provider variant. -/
def meterName : String := "github.com/casbin/casbin-opentelemetry-logger"

/-- The enforce-duration histogram registration request. -/
def enforceDurationReq : InstrumentReq :=
  { kind := .float64Histogram, name := "casbin.enforce.duration",
    description := "Duration of enforce requests in seconds", unit := some "s" }

/-- The enforce-total counter registration request. -/
def enforceTotalReq : InstrumentReq :=
  { kind := .int64Counter, name := "casbin.enforce.total",
    description := "Total number of enforce requests" }

/-- The policy-operations-total counter registration request. -/
def policyOpsTotalReq : InstrumentReq :=
  { kind := .int64Counter, name := "casbin.policy.operations.total",
    description := "Total number of policy operations" }

/-- The policy-operations-duration histogram registration request. -/
def policyOpsDurationReq : InstrumentReq :=
  { kind := .float64Histogram, name := "casbin.policy.operations.duration",
    description := "Duration of policy operations in seconds", unit := some "s" }

/-- The policy-rules-count gauge registration request. -/
def policyRulesCountReq : InstrumentReq :=
  { kind := .int64Gauge, name := "casbin.policy.rules.count",
    description := "Number of policy rules affected by operations" }

/-- The five registration requests made by both constructors, in source
order. -/
def constructionRequests : List InstrumentReq :=
  [enforceDurationReq, enforceTotalReq, policyOpsTotalReq,
   policyOpsDurationReq, policyRulesCountReq]

/-- NewOpenTelemetryLoggerWithContext registers the five instruments in
order, returning the error of the first failing registration, or the
logger (empty enabled map, no callback, the supplied context stored)
when all five succeed.  The first component lists the registration
requests actually issued. -/
def NewOpenTelemetryLoggerWithContext (ctx : Ctx) (meter : Meter) :
    List InstrumentReq × Except String OpenTelemetryLogger :=
  let r1 := enforceDurationReq
  match meter r1 with
  | some err => ([r1], .error err)
  | none =>
    let r2 := enforceTotalReq
    match meter r2 with
    | some err => ([r1, r2], .error err)
    | none =>
      let r3 := policyOpsTotalReq
      match meter r3 with
      | some err => ([r1, r2, r3], .error err)
      | none =>
        let r4 := policyOpsDurationReq
        match meter r4 with
        | some err => ([r1, r2, r3, r4], .error err)
        | none =>
          let r5 := policyRulesCountReq
          match meter r5 with
          | some err => ([r1, r2, r3, r4, r5], .error err)
          | none =>
            ([r1, r2, r3, r4, r5],
             .ok { enabledEventTypes := ∅, callback := none, ctx := ctx })

/-- NewOpenTelemetryLogger defers to the context constructor with a
background context. -/
def NewOpenTelemetryLogger (meter : Meter) :
    List InstrumentReq × Except String OpenTelemetryLogger :=
  NewOpenTelemetryLoggerWithContext Ctx.background meter

/-- The provider-based logger variant: enabled-event set, optional
callback, and the meter derived from the provider (no stored context;
measurements use a fresh background context). -/
structure OpenTelemetryLoggerP where
  enabledEventTypes : Finset EventType
  callback : Option (LogEntry → Option String)
  meter : Meter

/-- NewOpenTelemetryLoggerWithMeterProvider derives a meter from the
provider under the package scope name and registers the same five
instruments in the same order; a failing registration panics (modelled
as the error case, so no logger value exists on that path). -/
def NewOpenTelemetryLoggerWithMeterProvider (provider : MeterProvider) :
    List InstrumentReq × Except String OpenTelemetryLoggerP :=
  let meter := provider meterName
  let r1 := enforceDurationReq
  match meter r1 with
  | some err => ([r1], .error err)
  | none =>
    let r2 := enforceTotalReq
    match meter r2 with
    | some err => ([r1, r2], .error err)
    | none =>
      let r3 := policyOpsTotalReq
      match meter r3 with
      | some err => ([r1, r2, r3], .error err)
      | none =>
        let r4 := policyOpsDurationReq
        match meter r4 with
        | some err => ([r1, r2, r3, r4], .error err)
        | none =>
          let r5 := policyRulesCountReq
          match meter r5 with
          | some err => ([r1, r2, r3, r4, r5], .error err)
          | none =>
            ([r1, r2, r3, r4, r5],
             .ok { enabledEventTypes := ∅, callback := none, meter := meter })

/-- SetEventTypes for the provider variant (same body as the context
variant). -/
def SetEventTypesP (l : OpenTelemetryLoggerP) (eventTypes : List EventType) :
    OpenTelemetryLoggerP × Option String :=
  ({ l with enabledEventTypes := eventTypes.foldl (fun s k => insert k s) ∅ }, none)

/-- SetLogCallback for the provider variant. -/
def SetLogCallbackP (l : OpenTelemetryLoggerP) (cb : LogEntry → Option String) :
    OpenTelemetryLoggerP × Option String :=
  ({ l with callback := some cb }, none)

/-- OnBeforeEvent for the provider variant (same body as the context
variant). -/
def OnBeforeEventP (l : OpenTelemetryLoggerP) (now : Int) (entry : LogEntry) :
    LogEntry × Option String :=
  if 0 < l.enabledEventTypes.card ∧ entry.eventType ∉ l.enabledEventTypes then
    ({ entry with isActive := false }, none)
  else
    ({ entry with isActive := true, startTime := now }, none)

/-- recordEnforceMetrics for the provider variant: identical attribute
construction, but measurements are recorded against a fresh background
context. -/
def recordEnforceMetricsP (entry : LogEntry) : List Emission :=
  let domain := if entry.domain = "" then "default" else entry.domain
  let allowed := if entry.allowed then "true" else "false"
  let ctx := Ctx.background
  let attrs := [("allowed", allowed), ("domain", domain)]
  [{ inst := .enforceDuration, op := .histRecord, ctx := ctx,
     value := entry.duration, attrs := attrs },
   { inst := .enforceTotal, op := .counterAdd, ctx := ctx,
     value := 1, attrs := attrs }]

/-- recordPolicyMetrics for the provider variant: identical attribute
construction against a fresh background context; the gauge reuses the
duration attribute set (equal content to the context variant's fresh
set). -/
def recordPolicyMetricsP (entry : LogEntry) : List Emission :=
  let operation := entry.eventType
  let success := if entry.error ≠ none then "false" else "true"
  let ctx := Ctx.background
  let opAttrs := [("operation", operation), ("success", success)]
  let durationAttrs := [("operation", operation)]
  [{ inst := .policyOpsTotal, op := .counterAdd, ctx := ctx,
     value := 1, attrs := opAttrs },
   { inst := .policyOpsDuration, op := .histRecord, ctx := ctx,
     value := entry.duration, attrs := durationAttrs }] ++
  (if 0 < entry.ruleCount then
     [{ inst := .policyRulesCount, op := .gaugeRecord, ctx := ctx,
        value := entry.ruleCount, attrs := durationAttrs }]
   else [])

/-- OnAfterEvent for the provider variant (same body as the context
variant, dispatching to the provider-variant recorders). -/
def OnAfterEventP (l : OpenTelemetryLoggerP) (now : Int) (entry : LogEntry) : AfterResult :=
  if !entry.isActive then
    { entry := entry, emissions := [], callbackCalls := [], ret := none }
  else
    let entry := { entry with endTime := now }
    let entry := { entry with duration := entry.endTime - entry.startTime }
    let ems :=
      if entry.eventType = EventEnforce then
        recordEnforceMetricsP entry
      else if isMutationKind entry.eventType then
        recordPolicyMetricsP entry
      else []
    match l.callback with
    | some cb => { entry := entry, emissions := ems, callbackCalls := [entry], ret := cb entry }
    | none => { entry := entry, emissions := ems, callbackCalls := [], ret := none }

/-- C1: OnBeforeEvent returns a nil error on every path; when the
enabled-event set is non-empty and the record's event kind is not a
member it sets is_active to false and changes nothing else (in
particular start_time is left untouched); in every other case (the
kind is a member, or the set is empty) it sets is_active to true and
stamps start_time with the current clock reading.  Both logger
variants behave identically. -/
theorem onBeforeEvent_gate_spec (l : OpenTelemetryLogger) (lp : OpenTelemetryLoggerP)
    (now : Int) (entry : LogEntry) :
    ((OnBeforeEvent l now entry).2 = none ∧
     (l.enabledEventTypes.Nonempty → entry.eventType ∉ l.enabledEventTypes →
       (OnBeforeEvent l now entry).1 = { entry with isActive := false }) ∧
     (l.enabledEventTypes = ∅ ∨ entry.eventType ∈ l.enabledEventTypes →
       (OnBeforeEvent l now entry).1 = { entry with isActive := true, startTime := now })) ∧
    ((OnBeforeEventP lp now entry).2 = none ∧
     (lp.enabledEventTypes.Nonempty → entry.eventType ∉ lp.enabledEventTypes →
       (OnBeforeEventP lp now entry).1 = { entry with isActive := false }) ∧
     (lp.enabledEventTypes = ∅ ∨ entry.eventType ∈ lp.enabledEventTypes →
       (OnBeforeEventP lp now entry).1 = { entry with isActive := true, startTime := now })) := by
  constructor
  · refine ⟨?_, ?_, ?_⟩
    · unfold OnBeforeEvent
      split <;> rfl
    · intro hne hnm
      have hc : 0 < l.enabledEventTypes.card ∧ entry.eventType ∉ l.enabledEventTypes :=
        ⟨Finset.card_pos.mpr hne, hnm⟩
      unfold OnBeforeEvent
      rw [if_pos hc]
    · intro hmem
      have hc : ¬(0 < l.enabledEventTypes.card ∧ entry.eventType ∉ l.enabledEventTypes) := by
        rcases hmem with hemp | hin
        · simp [hemp]
        · exact fun hx => hx.2 hin
      unfold OnBeforeEvent
      rw [if_neg hc]
  · refine ⟨?_, ?_, ?_⟩
    · unfold OnBeforeEventP
      split <;> rfl
    · intro hne hnm
      have hc : 0 < lp.enabledEventTypes.card ∧ entry.eventType ∉ lp.enabledEventTypes :=
        ⟨Finset.card_pos.mpr hne, hnm⟩
      unfold OnBeforeEventP
      rw [if_pos hc]
    · intro hmem
      have hc : ¬(0 < lp.enabledEventTypes.card ∧ entry.eventType ∉ lp.enabledEventTypes) := by
        rcases hmem with hemp | hin
        · simp [hemp]
        · exact fun hx => hx.2 hin
      unfold OnBeforeEventP
      rw [if_neg hc]

/-- Witness for C1: with the enabled set {Evaluate}, a mutation record
is marked inactive and otherwise untouched by both variants. -/
theorem onBeforeEvent_gate_spec_witness :
    (OnBeforeEvent { enabledEventTypes := {EventEnforce}, callback := none, ctx := .custom 1 } 5
        { eventType := EventAddPolicy }).1 =
      { eventType := EventAddPolicy, isActive := false } ∧
    (OnBeforeEventP
        { enabledEventTypes := {EventEnforce}, callback := none, meter := fun _ => none } 5
        { eventType := EventAddPolicy }).1 =
      { eventType := EventAddPolicy, isActive := false } := by
  have h := onBeforeEvent_gate_spec
    { enabledEventTypes := {EventEnforce}, callback := none, ctx := .custom 1 }
    { enabledEventTypes := {EventEnforce}, callback := none, meter := fun _ => none } 5
    { eventType := EventAddPolicy }
  exact ⟨h.1.2.1 (Finset.singleton_nonempty _) (by decide),
         h.2.2.1 (Finset.singleton_nonempty _) (by decide)⟩

/-- C5: OnAfterEvent on an inactive record is a complete no-op for both
variants: the record is returned unchanged (end_time and duration are
untouched), no measurement is emitted, the callback is never invoked,
and a nil error is returned; iterating the call any number of times
leaves the record fixed. -/
theorem onAfterEvent_inactive_noop (l : OpenTelemetryLogger) (lp : OpenTelemetryLoggerP)
    (now : Int) (entry : LogEntry) (h : entry.isActive = false) :
    OnAfterEvent l now entry =
      { entry := entry, emissions := [], callbackCalls := [], ret := none } ∧
    (∀ n : Nat, (fun e => (OnAfterEvent l now e).entry)^[n] entry = entry) ∧
    OnAfterEventP lp now entry =
      { entry := entry, emissions := [], callbackCalls := [], ret := none } ∧
    (∀ n : Nat, (fun e => (OnAfterEventP lp now e).entry)^[n] entry = entry) := by
  have h1 : OnAfterEvent l now entry =
      { entry := entry, emissions := [], callbackCalls := [], ret := none } := by
    simp [OnAfterEvent, h]
  have h2 : OnAfterEventP lp now entry =
      { entry := entry, emissions := [], callbackCalls := [], ret := none } := by
    simp [OnAfterEventP, h]
  refine ⟨h1, ?_, h2, ?_⟩
  · intro n
    induction n with
    | zero => rfl
    | succ k ih =>
      rw [Function.iterate_succ_apply', ih]
      show (OnAfterEvent l now entry).entry = entry
      rw [h1]
  · intro n
    induction n with
    | zero => rfl
    | succ k ih =>
      rw [Function.iterate_succ_apply', ih]
      show (OnAfterEventP lp now entry).entry = entry
      rw [h2]

/-- Witness for C5 at a concrete inactive record. -/
theorem onAfterEvent_inactive_noop_witness :
    OnAfterEvent { enabledEventTypes := ∅, callback := none, ctx := .background } 7
        { eventType := EventEnforce } =
      { entry := { eventType := EventEnforce }, emissions := [], callbackCalls := [],
        ret := none } :=
  (onAfterEvent_inactive_noop
    { enabledEventTypes := ∅, callback := none, ctx := .background }
    { enabledEventTypes := ∅, callback := none, meter := fun _ => none } 7
    { eventType := EventEnforce } rfl).1

/-- C7: on an active record both variants stamp end_time with the
clock reading, leave start_time alone, and set
duration = end_time - start_time; whenever the supplied start_time does
not lie after the completion clock reading (start_time in the past),
the duration is non-negative. -/
theorem onAfterEvent_duration_spec (l : OpenTelemetryLogger) (lp : OpenTelemetryLoggerP)
    (now : Int) (entry : LogEntry) (h : entry.isActive = true) :
    ((OnAfterEvent l now entry).entry.endTime = now ∧
     (OnAfterEvent l now entry).entry.startTime = entry.startTime ∧
     (OnAfterEvent l now entry).entry.duration =
       (OnAfterEvent l now entry).entry.endTime -
         (OnAfterEvent l now entry).entry.startTime ∧
     (entry.startTime ≤ now → 0 ≤ (OnAfterEvent l now entry).entry.duration)) ∧
    ((OnAfterEventP lp now entry).entry.endTime = now ∧
     (OnAfterEventP lp now entry).entry.startTime = entry.startTime ∧
     (OnAfterEventP lp now entry).entry.duration =
       (OnAfterEventP lp now entry).entry.endTime -
         (OnAfterEventP lp now entry).entry.startTime ∧
     (entry.startTime ≤ now → 0 ≤ (OnAfterEventP lp now entry).entry.duration)) := by
  have keyA : (OnAfterEvent l now entry).entry =
      { entry with endTime := now, duration := now - entry.startTime } := by
    cases hcb : l.callback <;> simp [OnAfterEvent, h, hcb]
  have keyB : (OnAfterEventP lp now entry).entry =
      { entry with endTime := now, duration := now - entry.startTime } := by
    cases hcb : lp.callback <;> simp [OnAfterEventP, h, hcb]
  rw [keyA, keyB]
  refine ⟨⟨rfl, rfl, rfl, ?_⟩, ⟨rfl, rfl, rfl, ?_⟩⟩ <;>
    · intro hle
      simp only
      omega

/-- Witness for C7: start_time 3, completion clock 10, duration 7 ≥ 0. -/
theorem onAfterEvent_duration_spec_witness :
    0 ≤ (OnAfterEvent { enabledEventTypes := ∅, callback := none, ctx := .background } 10
        { eventType := EventEnforce, isActive := true, startTime := 3 }).entry.duration :=
  ((onAfterEvent_duration_spec
      { enabledEventTypes := ∅, callback := none, ctx := .background }
      { enabledEventTypes := ∅, callback := none, meter := fun _ => none } 10
      { eventType := EventEnforce, isActive := true, startTime := 3 } rfl).1.2.2.2
    (by decide))

/-- C6: on an active record, after metric emission and regardless of
the dispatch branch taken (including an event kind outside the known
set, which emits no metrics), both variants invoke the registered
callback exactly once with the completed record and return its result
verbatim; with no callback registered they return a nil error. -/
theorem onAfterEvent_callback_spec (l : OpenTelemetryLogger) (lp : OpenTelemetryLoggerP)
    (now : Int) (entry : LogEntry) (h : entry.isActive = true) :
    ((∀ cb, l.callback = some cb →
        (OnAfterEvent l now entry).callbackCalls = [(OnAfterEvent l now entry).entry] ∧
        (OnAfterEvent l now entry).ret = cb (OnAfterEvent l now entry).entry) ∧
     (l.callback = none →
        (OnAfterEvent l now entry).callbackCalls = [] ∧
        (OnAfterEvent l now entry).ret = none) ∧
     (entry.eventType ∉ knownEventTypes → (OnAfterEvent l now entry).emissions = [])) ∧
    ((∀ cb, lp.callback = some cb →
        (OnAfterEventP lp now entry).callbackCalls = [(OnAfterEventP lp now entry).entry] ∧
        (OnAfterEventP lp now entry).ret = cb (OnAfterEventP lp now entry).entry) ∧
     (lp.callback = none →
        (OnAfterEventP lp now entry).callbackCalls = [] ∧
        (OnAfterEventP lp now entry).ret = none) ∧
     (entry.eventType ∉ knownEventTypes → (OnAfterEventP lp now entry).emissions = [])) := by
  constructor
  · refine ⟨?_, ?_, ?_⟩
    · intro cb hcb
      simp [OnAfterEvent, h, hcb]
    · intro hcb
      simp [OnAfterEvent, h, hcb]
    · intro hk
      simp only [knownEventTypes, List.mem_cons, List.not_mem_nil, or_false] at hk
      push_neg at hk
      obtain ⟨h1, h2, h3, h4, h5⟩ := hk
      cases hcb : l.callback <;>
        simp [OnAfterEvent, h, hcb, h1, isMutationKind, h2, h3, h4, h5]
  · refine ⟨?_, ?_, ?_⟩
    · intro cb hcb
      simp [OnAfterEventP, h, hcb]
    · intro hcb
      simp [OnAfterEventP, h, hcb]
    · intro hk
      simp only [knownEventTypes, List.mem_cons, List.not_mem_nil, or_false] at hk
      push_neg at hk
      obtain ⟨h1, h2, h3, h4, h5⟩ := hk
      cases hcb : lp.callback <;>
        simp [OnAfterEventP, h, hcb, h1, isMutationKind, h2, h3, h4, h5]

/-- Witness for C6: a registered callback returning a fixed failure
value makes OnAfterEvent on an active record return exactly that
value, and the callback is invoked exactly once. -/
theorem onAfterEvent_callback_spec_witness :
    (OnAfterEvent
        { enabledEventTypes := ∅, callback := some (fun _ => some "boom"), ctx := .background } 9
        { eventType := EventEnforce, isActive := true }).ret = some "boom" ∧
    (OnAfterEvent
        { enabledEventTypes := ∅, callback := some (fun _ => some "boom"), ctx := .background } 9
        { eventType := EventEnforce, isActive := true }).callbackCalls.length = 1 := by
  have h := (onAfterEvent_callback_spec
    { enabledEventTypes := ∅, callback := some (fun _ => some "boom"), ctx := .background }
    { enabledEventTypes := ∅, callback := none, meter := fun _ => none } 9
    { eventType := EventEnforce, isActive := true } rfl).1.1 (fun _ => some "boom") rfl
  refine ⟨h.2.trans rfl, ?_⟩
  rw [h.1]
  rfl

/-- C2: on an active record of the enforce kind, both variants emit
exactly one duration value to the enforce-duration histogram and add
exactly 1 to the enforce counter, in that order, both measurements
carrying the same attribute set: allowed mapped from the boolean
outcome and domain defaulted to "default" when empty. -/
theorem onAfterEvent_enforce_metrics_spec (l : OpenTelemetryLogger) (lp : OpenTelemetryLoggerP)
    (now : Int) (entry : LogEntry) (hA : entry.isActive = true)
    (hK : entry.eventType = EventEnforce) :
    (OnAfterEvent l now entry).emissions =
      [{ inst := .enforceDuration, op := .histRecord, ctx := l.ctx,
         value := now - entry.startTime,
         attrs := [("allowed", if entry.allowed then "true" else "false"),
                   ("domain", if entry.domain = "" then "default" else entry.domain)] },
       { inst := .enforceTotal, op := .counterAdd, ctx := l.ctx, value := 1,
         attrs := [("allowed", if entry.allowed then "true" else "false"),
                   ("domain", if entry.domain = "" then "default" else entry.domain)] }] ∧
    (OnAfterEventP lp now entry).emissions =
      [{ inst := .enforceDuration, op := .histRecord, ctx := Ctx.background,
         value := now - entry.startTime,
         attrs := [("allowed", if entry.allowed then "true" else "false"),
                   ("domain", if entry.domain = "" then "default" else entry.domain)] },
       { inst := .enforceTotal, op := .counterAdd, ctx := Ctx.background, value := 1,
         attrs := [("allowed", if entry.allowed then "true" else "false"),
                   ("domain", if entry.domain = "" then "default" else entry.domain)] }] := by
  constructor
  · cases hcb : l.callback <;>
      simp [OnAfterEvent, recordEnforceMetrics, hA, hK, hcb]
  · cases hcb : lp.callback <;>
      simp [OnAfterEventP, recordEnforceMetricsP, hA, hK, hcb]

/-- Witness for C2: a concrete allowed evaluation with empty domain is
recorded once on each enforce instrument under domain "default". -/
theorem onAfterEvent_enforce_metrics_spec_witness :
    (OnAfterEvent { enabledEventTypes := ∅, callback := none, ctx := .custom 2 } 10
        { eventType := EventEnforce, isActive := true, startTime := 4, allowed := true }).emissions =
      [{ inst := .enforceDuration, op := .histRecord, ctx := .custom 2, value := 6,
         attrs := [("allowed", "true"), ("domain", "default")] },
       { inst := .enforceTotal, op := .counterAdd, ctx := .custom 2, value := 1,
         attrs := [("allowed", "true"), ("domain", "default")] }] := by
  have h := (onAfterEvent_enforce_metrics_spec
    { enabledEventTypes := ∅, callback := none, ctx := .custom 2 }
    { enabledEventTypes := ∅, callback := none, meter := fun _ => none } 10
    { eventType := EventEnforce, isActive := true, startTime := 4, allowed := true } rfl rfl).1
  rw [h]
  decide

/-- A mutation kind is never the enforce kind (the five known kind
constants are pairwise distinct). -/
lemma mutationKind_ne_enforce {k : EventType} (hk : isMutationKind k) :
    ¬(k = EventEnforce) := by
  rcases hk with h | h | h | h <;> subst h <;> decide

/-- C3: on an active record of a mutation kind, both variants add
exactly 1 to the policy-operations counter with attributes
{operation = the event kind as a string, success mapped from the error
field}, and emit exactly one duration value to the policy-operations
duration histogram whose attribute set holds the operation only — the
success attribute is never attached to the duration measurement. -/
theorem onAfterEvent_mutation_metrics_spec (l : OpenTelemetryLogger)
    (lp : OpenTelemetryLoggerP) (now : Int) (entry : LogEntry)
    (hA : entry.isActive = true) (hK : isMutationKind entry.eventType) :
    ((OnAfterEvent l now entry).emissions.filter
        (fun m => decide (m.inst = Instrument.policyOpsTotal)) =
      [{ inst := .policyOpsTotal, op := .counterAdd, ctx := l.ctx, value := 1,
         attrs := [("operation", entry.eventType),
                   ("success", if entry.error = none then "true" else "false")] }] ∧
     (OnAfterEvent l now entry).emissions.filter
        (fun m => decide (m.inst = Instrument.policyOpsDuration)) =
      [{ inst := .policyOpsDuration, op := .histRecord, ctx := l.ctx,
         value := now - entry.startTime,
         attrs := [("operation", entry.eventType)] }]) ∧
    ((OnAfterEventP lp now entry).emissions.filter
        (fun m => decide (m.inst = Instrument.policyOpsTotal)) =
      [{ inst := .policyOpsTotal, op := .counterAdd, ctx := Ctx.background, value := 1,
         attrs := [("operation", entry.eventType),
                   ("success", if entry.error = none then "true" else "false")] }] ∧
     (OnAfterEventP lp now entry).emissions.filter
        (fun m => decide (m.inst = Instrument.policyOpsDuration)) =
      [{ inst := .policyOpsDuration, op := .histRecord, ctx := Ctx.background,
         value := now - entry.startTime,
         attrs := [("operation", entry.eventType)] }]) := by
  have hne := mutationKind_ne_enforce hK
  refine ⟨⟨?_, ?_⟩, ⟨?_, ?_⟩⟩ <;>
    cases hcb : l.callback <;> cases hcb2 : lp.callback <;>
      by_cases hrc : 0 < entry.ruleCount <;> cases herr : entry.error <;>
        simp [OnAfterEvent, OnAfterEventP, recordPolicyMetrics, recordPolicyMetricsP,
          hA, hK, hne, hcb, hcb2, hrc, herr]

/-- Witness for C3: a failed RemoveRules operation is counted once with
success "false", and its duration measurement carries the operation
attribute only. -/
theorem onAfterEvent_mutation_metrics_spec_witness :
    (OnAfterEvent { enabledEventTypes := ∅, callback := none, ctx := .custom 3 } 9
        { eventType := EventRemovePolicy, isActive := true, startTime := 4, ruleCount := 2,
          error := some "disk failure" }).emissions.filter
        (fun m => decide (m.inst = Instrument.policyOpsDuration)) =
      [{ inst := .policyOpsDuration, op := .histRecord, ctx := .custom 3, value := 5,
         attrs := [("operation", EventRemovePolicy)] }] := by
  have h := (onAfterEvent_mutation_metrics_spec
    { enabledEventTypes := ∅, callback := none, ctx := .custom 3 }
    { enabledEventTypes := ∅, callback := none, meter := fun _ => none } 9
    { eventType := EventRemovePolicy, isActive := true, startTime := 4, ruleCount := 2,
      error := some "disk failure" } rfl (Or.inr (Or.inl rfl))).1.2
  rw [h]
  decide

/-- C4: on an active record of a mutation kind, both variants record
the rule count to the rules-affected gauge, tagged with the operation
only, exactly when the rule count is positive; a zero or negative rule
count never touches the gauge. -/
theorem onAfterEvent_rules_gauge_spec (l : OpenTelemetryLogger)
    (lp : OpenTelemetryLoggerP) (now : Int) (entry : LogEntry)
    (hA : entry.isActive = true) (hK : isMutationKind entry.eventType) :
    ((OnAfterEvent l now entry).emissions.filter
        (fun m => decide (m.inst = Instrument.policyRulesCount)) =
      (if 0 < entry.ruleCount then
        [{ inst := .policyRulesCount, op := .gaugeRecord, ctx := l.ctx,
           value := entry.ruleCount, attrs := [("operation", entry.eventType)] }]
       else [])) ∧
    ((OnAfterEventP lp now entry).emissions.filter
        (fun m => decide (m.inst = Instrument.policyRulesCount)) =
      (if 0 < entry.ruleCount then
        [{ inst := .policyRulesCount, op := .gaugeRecord, ctx := Ctx.background,
           value := entry.ruleCount, attrs := [("operation", entry.eventType)] }]
       else [])) := by
  have hne := mutationKind_ne_enforce hK
  refine ⟨?_, ?_⟩ <;>
    cases hcb : l.callback <;> cases hcb2 : lp.callback <;>
      by_cases hrc : 0 < entry.ruleCount <;> cases herr : entry.error <;>
        simp [OnAfterEvent, OnAfterEventP, recordPolicyMetrics, recordPolicyMetricsP,
          hA, hK, hne, hcb, hcb2, hrc, herr]

/-- Witness for C4: a SaveRuleset record with rule count 0 leaves the
gauge untouched, while rule count 3 records exactly one gauge value. -/
theorem onAfterEvent_rules_gauge_spec_witness :
    (OnAfterEvent { enabledEventTypes := ∅, callback := none, ctx := .background } 9
        { eventType := EventSavePolicy, isActive := true, startTime := 1,
          ruleCount := 0 }).emissions.filter
        (fun m => decide (m.inst = Instrument.policyRulesCount)) = [] ∧
    (OnAfterEvent { enabledEventTypes := ∅, callback := none, ctx := .background } 9
        { eventType := EventSavePolicy, isActive := true, startTime := 1,
          ruleCount := 3 }).emissions.filter
        (fun m => decide (m.inst = Instrument.policyRulesCount)) =
      [{ inst := .policyRulesCount, op := .gaugeRecord, ctx := .background, value := 3,
         attrs := [("operation", EventSavePolicy)] }] := by
  have h0 := (onAfterEvent_rules_gauge_spec
    { enabledEventTypes := ∅, callback := none, ctx := .background }
    { enabledEventTypes := ∅, callback := none, meter := fun _ => none } 9
    { eventType := EventSavePolicy, isActive := true, startTime := 1, ruleCount := 0 }
    rfl (Or.inr (Or.inr (Or.inr rfl)))).1
  have h3 := (onAfterEvent_rules_gauge_spec
    { enabledEventTypes := ∅, callback := none, ctx := .background }
    { enabledEventTypes := ∅, callback := none, meter := fun _ => none } 9
    { eventType := EventSavePolicy, isActive := true, startTime := 1, ruleCount := 3 }
    rfl (Or.inr (Or.inr (Or.inr rfl)))).1
  rw [h0, h3]
  constructor <;> decide

/-- C8: both constructors register exactly the five instruments with
the stable names casbin.enforce.duration (unit seconds),
casbin.enforce.total, casbin.policy.operations.total,
casbin.policy.operations.duration (unit seconds) and
casbin.policy.rules.count; construction yields a logger exactly when
every one of the five registrations succeeds, and when any one fails
the whole construction fails (error return in the context variant,
panic in the provider variant), so no partially-initialized component
is ever returned. -/
theorem construction_instruments_spec (ctx : Ctx) (meter : Meter)
    (provider : MeterProvider) :
    constructionRequests.map (fun r => (r.name, r.unit)) =
      [("casbin.enforce.duration", some "s"), ("casbin.enforce.total", none),
       ("casbin.policy.operations.total", none),
       ("casbin.policy.operations.duration", some "s"),
       ("casbin.policy.rules.count", none)] ∧
    ((∃ lg, (NewOpenTelemetryLoggerWithContext ctx meter).2 = .ok lg) ↔
      ∀ r ∈ constructionRequests, meter r = none) ∧
    ((∀ r ∈ constructionRequests, meter r = none) →
      (NewOpenTelemetryLoggerWithContext ctx meter).1 = constructionRequests) ∧
    ((∃ lg, (NewOpenTelemetryLoggerWithMeterProvider provider).2 = .ok lg) ↔
      ∀ r ∈ constructionRequests, provider meterName r = none) ∧
    ((∀ r ∈ constructionRequests, provider meterName r = none) →
      (NewOpenTelemetryLoggerWithMeterProvider provider).1 = constructionRequests) := by
  have hand : (∀ r ∈ constructionRequests, meter r = none) ↔
      (meter enforceDurationReq = none ∧ meter enforceTotalReq = none ∧
       meter policyOpsTotalReq = none ∧ meter policyOpsDurationReq = none ∧
       meter policyRulesCountReq = none) := by
    simp [constructionRequests]
  have handP : (∀ r ∈ constructionRequests, provider meterName r = none) ↔
      (provider meterName enforceDurationReq = none ∧
       provider meterName enforceTotalReq = none ∧
       provider meterName policyOpsTotalReq = none ∧
       provider meterName policyOpsDurationReq = none ∧
       provider meterName policyRulesCountReq = none) := by
    simp [constructionRequests]
  refine ⟨rfl, ?_, ?_, ?_, ?_⟩
  · rw [hand]
    cases h1 : meter enforceDurationReq <;>
      cases h2 : meter enforceTotalReq <;>
        cases h3 : meter policyOpsTotalReq <;>
          cases h4 : meter policyOpsDurationReq <;>
            cases h5 : meter policyRulesCountReq <;>
              simp [NewOpenTelemetryLoggerWithContext, h1, h2, h3, h4, h5]
  · rw [hand]
    rintro ⟨h1, h2, h3, h4, h5⟩
    simp [NewOpenTelemetryLoggerWithContext, constructionRequests, h1, h2, h3, h4, h5]
  · rw [handP]
    cases h1 : provider meterName enforceDurationReq <;>
      cases h2 : provider meterName enforceTotalReq <;>
        cases h3 : provider meterName policyOpsTotalReq <;>
          cases h4 : provider meterName policyOpsDurationReq <;>
            cases h5 : provider meterName policyRulesCountReq <;>
              simp [NewOpenTelemetryLoggerWithMeterProvider, h1, h2, h3, h4, h5]
  · rw [handP]
    rintro ⟨h1, h2, h3, h4, h5⟩
    simp [NewOpenTelemetryLoggerWithMeterProvider, constructionRequests, h1, h2, h3, h4, h5]

/-- Witness for C8: under a backend accepting every registration, the
context constructor issues exactly the five canonical requests. -/
theorem construction_instruments_spec_witness :
    (NewOpenTelemetryLoggerWithContext Ctx.background (fun _ => none)).1 =
      constructionRequests :=
  (construction_instruments_spec Ctx.background (fun _ => none) (fun _ _ => none)).2.2.1
    (fun _ _ => rfl)

/-- Folding map-insertion over a list of kinds starting from a set s
yields s united with the set of kinds in the list. -/
lemma foldl_insert_toFinset (ts : List EventType) (s : Finset EventType) :
    ts.foldl (fun t k => insert k t) s = s ∪ ts.toFinset := by
  induction ts generalizing s with
  | nil => simp
  | cons a t ih =>
    rw [List.foldl_cons, ih, List.toFinset_cons, Finset.union_insert, Finset.insert_union]

/-- C9: SetEventTypes never fails and replaces the enabled-event set
wholesale with the set of kinds occurring in the supplied sequence
(duplicates collapse, order is irrelevant); consequently any two
sequences holding the same set of kinds produce identical logger state
and identical subsequent OnBeforeEvent behavior.  Both variants agree. -/
theorem setEventTypes_spec (l : OpenTelemetryLogger) (lp : OpenTelemetryLoggerP)
    (ts1 ts2 : List EventType) :
    ((SetEventTypes l ts1).2 = none ∧
     (SetEventTypes l ts1).1.enabledEventTypes = ts1.toFinset ∧
     (ts1.toFinset = ts2.toFinset →
       (SetEventTypes l ts1).1 = (SetEventTypes l ts2).1 ∧
       ∀ now entry, OnBeforeEvent (SetEventTypes l ts1).1 now entry =
         OnBeforeEvent (SetEventTypes l ts2).1 now entry)) ∧
    ((SetEventTypesP lp ts1).2 = none ∧
     (SetEventTypesP lp ts1).1.enabledEventTypes = ts1.toFinset ∧
     (ts1.toFinset = ts2.toFinset →
       (SetEventTypesP lp ts1).1 = (SetEventTypesP lp ts2).1 ∧
       ∀ now entry, OnBeforeEventP (SetEventTypesP lp ts1).1 now entry =
         OnBeforeEventP (SetEventTypesP lp ts2).1 now entry)) := by
  have hset : ∀ ts : List EventType,
      ts.foldl (fun t k => insert k t) (∅ : Finset EventType) = ts.toFinset := by
    intro ts
    rw [foldl_insert_toFinset]
    simp
  refine ⟨⟨rfl, ?_, ?_⟩, ⟨rfl, ?_, ?_⟩⟩
  · simp [SetEventTypes, hset]
  · intro h12
    have heq : (SetEventTypes l ts1).1 = (SetEventTypes l ts2).1 := by
      simp [SetEventTypes, hset, h12]
    exact ⟨heq, fun now entry => by rw [heq]⟩
  · simp [SetEventTypesP, hset]
  · intro h12
    have heq : (SetEventTypesP lp ts1).1 = (SetEventTypesP lp ts2).1 := by
      simp [SetEventTypesP, hset, h12]
    exact ⟨heq, fun now entry => by rw [heq]⟩

/-- Witness for C9: a sequence with a duplicate and a reordered
sequence of the same kinds produce the same logger state. -/
theorem setEventTypes_spec_witness :
    (SetEventTypes { enabledEventTypes := ∅, callback := none, ctx := .background }
        [EventEnforce, EventAddPolicy, EventEnforce]).1 =
      (SetEventTypes { enabledEventTypes := ∅, callback := none, ctx := .background }
        [EventAddPolicy, EventEnforce]).1 :=
  ((setEventTypes_spec { enabledEventTypes := ∅, callback := none, ctx := .background }
      { enabledEventTypes := ∅, callback := none, meter := fun _ => none }
      [EventEnforce, EventAddPolicy, EventEnforce]
      [EventAddPolicy, EventEnforce]).1.2.2 (by decide)).1

/-- The context-independent content of a measurement: instrument,
primitive, value and attribute set. -/
def measurementData (m : Emission) :
    Instrument × MeasureOp × Int × List (String × String) :=
  (m.inst, m.op, m.value, m.attrs)

/-- C10: for every record, enabled-event set and callback
configuration, the two construction variants yield observationally
equivalent hook behavior: OnBeforeEvent agrees exactly, and
OnAfterEvent produces the same record mutation, the same returned
error, the same callback invocations, and the same measurements
(instrument, primitive, value, attribute set), differing only in the
context argument attached to each measurement. -/
theorem variants_observationally_equivalent (es : Finset EventType)
    (cb : Option (LogEntry → Option String)) (ctx : Ctx) (meter : Meter)
    (now : Int) (entry : LogEntry) :
    OnBeforeEvent { enabledEventTypes := es, callback := cb, ctx := ctx } now entry =
      OnBeforeEventP { enabledEventTypes := es, callback := cb, meter := meter } now entry ∧
    (OnAfterEvent { enabledEventTypes := es, callback := cb, ctx := ctx } now entry).entry =
      (OnAfterEventP { enabledEventTypes := es, callback := cb, meter := meter } now entry).entry ∧
    (OnAfterEvent { enabledEventTypes := es, callback := cb, ctx := ctx } now entry).ret =
      (OnAfterEventP { enabledEventTypes := es, callback := cb, meter := meter } now entry).ret ∧
    (OnAfterEvent { enabledEventTypes := es, callback := cb, ctx := ctx } now entry).callbackCalls =
      (OnAfterEventP { enabledEventTypes := es, callback := cb, meter := meter } now entry).callbackCalls ∧
    (OnAfterEvent { enabledEventTypes := es, callback := cb, ctx := ctx } now entry).emissions.map
        measurementData =
      (OnAfterEventP { enabledEventTypes := es, callback := cb, meter := meter } now entry).emissions.map
        measurementData := by
  refine ⟨rfl, ?_⟩
  cases hact : entry.isActive
  · cases hcb : cb <;>
      simp [OnAfterEvent, OnAfterEventP, hact, hcb]
  · by_cases hk1 : entry.eventType = EventEnforce
    · cases hcb : cb <;>
        simp [OnAfterEvent, OnAfterEventP, recordEnforceMetrics, recordEnforceMetricsP,
          measurementData, hact, hcb, hk1]
    · by_cases hk2 : isMutationKind entry.eventType
      · cases hcb : cb <;> by_cases hrc : 0 < entry.ruleCount <;>
          simp [OnAfterEvent, OnAfterEventP, recordPolicyMetrics, recordPolicyMetricsP,
            measurementData, hact, hcb, hk1, hk2, hrc]
      · cases hcb : cb <;>
          simp [OnAfterEvent, OnAfterEventP, measurementData, hact, hcb, hk1, hk2]
